import Mathlib

/-!
Verification of the session-state gateway in
`src/trading/broker_service/easytrader_service.py`.

The module-level mutable globals (`trader`, `broker_type`, `trader_connected`)
become an explicit `GatewayState`; each FastAPI handler becomes a pure function
from the state, the (already validated) request body, the current time and the
outcome of the single external-collaborator call it may perform, to the new
state, the HTTP result and the list of collaborator calls actually issued.
Pydantic request validation (`Field(..., gt=0)` etc.) is modelled by explicit
`validate` functions that run before the handler, exactly as FastAPI does.
-/

namespace EasyTrader

/-- A JSON-like value, standing for Python `Any` payloads. -/
inductive JsonVal where
  | null
  | bool (b : Bool)
  | num (q : Rat)
  | str (s : String)
  | arr (xs : List JsonVal)
  | obj (fields : List (String × JsonVal))

/-- `ResponseModel` from the source: the uniform response envelope. -/
structure ResponseModel where
  success : Bool
  message : String
  data : Option JsonVal
  timestamp : String

/-- `create_response` from the source.  Python reads `datetime.now()` inside;
here the current time is the explicit `now` argument. -/
def create_response (now : String) (success : Bool) (message : String)
    (data : Option JsonVal := none) : ResponseModel :=
  { success := success, message := message, data := data, timestamp := now }

/-- Result of one HTTP request: a 200 response carrying an envelope, or a
raised `HTTPException` with a status code and a detail string. -/
inductive HttpResult where
  | ok (env : ResponseModel)
  | httpError (code : Nat) (detail : String)

/-- One call into the external easytrader collaborator, recorded with the
handle it was made on and its arguments. -/
inductive CollabCall where
  | useCall (brokerType : String)
  | prepareCall (handle : Nat) (exePath : Option String)
  | loginCall (handle : Nat) (creds : Option (Option String × Option String))
  | exitCall (handle : Nat)
  | buyCall (handle : Nat) (symbol : String) (price : Rat) (amount : Int)
  | sellCall (handle : Nat) (symbol : String) (price : Rat) (amount : Int)
  | cancelCall (handle : Nat) (orderId : String)
  | positionCall (handle : Nat)
  | balanceCall (handle : Nat)
  | todayEntrustsCall (handle : Nat)
  | todayTradesCall (handle : Nat)

/-- The process-wide globals of the source module: `trader` (a live collaborator
object or `None`), `broker_type`, `trader_connected`.  `nextHandle` is the
supply of fresh handles: `easytrader.use` always returns a new object. -/
structure GatewayState where
  trader : Option Nat
  brokerType : String
  traderConnected : Bool
  nextHandle : Nat

/-- The session counts as Connected exactly when a handle exists and the
connected flag is set; the source guards every trading/query handler with
`if not trader or not trader_connected`. -/
def connectedB (st : GatewayState) : Bool :=
  st.trader.isSome && st.traderConnected

/-- `LoginRequest` from the source. -/
structure LoginRequest where
  broker_type : String
  username : Option String
  password : Option String
  exe_path : Option String

/-- `BuyRequest` from the source (fields `symbol`, `price`, `amount`). -/
structure BuyRequest where
  symbol : String
  price : Rat
  amount : Int

/-- `SellRequest` from the source. -/
structure SellRequest where
  symbol : String
  price : Rat
  amount : Int

/-- `CancelRequest` from the source (field `order_id`). -/
structure CancelRequest where
  order_id : String

/-- Pydantic validation of `BuyRequest`: all three fields are required
(`Field(...)`), and `price` and `amount` carry `gt=0`.  The `symbol` string
has no further constraint — any string, including the empty one, is accepted. -/
def BuyRequest.validate (symbol : Option String) (price : Option Rat)
    (amount : Option Int) : Option BuyRequest :=
  match symbol, price, amount with
  | some s, some p, some a =>
      if 0 < p ∧ 0 < a then some ⟨s, p, a⟩ else none
  | _, _, _ => none

/-- Pydantic validation of `SellRequest`, identical in shape to `BuyRequest`. -/
def SellRequest.validate (symbol : Option String) (price : Option Rat)
    (amount : Option Int) : Option SellRequest :=
  match symbol, price, amount with
  | some s, some p, some a =>
      if 0 < p ∧ 0 < a then some ⟨s, p, a⟩ else none
  | _, _, _ => none

/-- Pydantic validation of `CancelRequest`: `order_id` is required but
otherwise unconstrained — any string, including the empty one, is accepted. -/
def CancelRequest.validate (orderId : Option String) : Option CancelRequest :=
  match orderId with
  | some s => some ⟨s⟩
  | none => none

/-- Python `req.exe_path or os.getenv("BROKER_EXE_PATH", "")`: the request
value wins unless it is `None` or empty. -/
def orDefault (a : Option String) (b : String) : String :=
  match a with
  | some s => if s = "" then b else s
  | none => b

/-- `if exe_path: trader.prepare(exe_path) else: trader.prepare()`: the
argument actually passed to `prepare`. -/
def prepareArg (exePath : String) : Option String :=
  if exePath = "" then none else some exePath

/-- The credentials passed to the collaborator login: `"yh"` logs in with no
arguments, every other broker kind passes `(username, password)` through. -/
def loginCreds (req : LoginRequest) : Option (Option String × Option String) :=
  if req.broker_type = "yh" then none else some (req.username, req.password)

/-- Outcome of the prepare-then-login sequence inside the handler's `try`
block: the `prepare` call may raise, the `login` call may raise, or both
succeed. -/
inductive ConnectOutcome where
  | prepareFail (msg : String)
  | loginFail (msg : String)
  | success

/-- The `/login` handler.  `useOutcome` is the outcome of
`easytrader.use(req.broker_type)` (which raises on an unknown broker kind);
`co` is the outcome of the subsequent prepare/login sequence.  On any
exception the handler sets `trader_connected = False` and raises a 500 whose
detail carries the exception text; assignments made before the exception
(`trader`, `broker_type`) are not rolled back. -/
def login (st : GatewayState) (req : LoginRequest) (envExePath : String)
    (now : String) (useOutcome : Except String Unit) (co : ConnectOutcome) :
    GatewayState × HttpResult × List CollabCall :=
  match useOutcome with
  | .error e =>
      ({ st with traderConnected := false },
       .httpError 500 ("登录失败: " ++ e),
       [.useCall req.broker_type])
  | .ok _ =>
      let h := st.nextHandle
      let exePath := orDefault req.exe_path envExePath
      let st1 : GatewayState :=
        { trader := some h, brokerType := req.broker_type,
          traderConnected := false, nextHandle := st.nextHandle + 1 }
      match co with
      | .prepareFail e =>
          (st1, .httpError 500 ("登录失败: " ++ e),
           [.useCall req.broker_type, .prepareCall h (prepareArg exePath)])
      | .loginFail e =>
          (st1, .httpError 500 ("登录失败: " ++ e),
           [.useCall req.broker_type, .prepareCall h (prepareArg exePath),
            .loginCall h (loginCreds req)])
      | .success =>
          ({ st1 with traderConnected := true },
           .ok (create_response now true ("成功登录券商: " ++ req.broker_type)
             (some (.obj [("broker_type", .str req.broker_type)]))),
           [.useCall req.broker_type, .prepareCall h (prepareArg exePath),
            .loginCall h (loginCreds req)])

/-- The `/logout` handler.  With no handle it returns a 200 envelope with
`success=False` and makes no collaborator call; otherwise it calls
`trader.exit()`, and only on success clears the handle and the connected
flag — on an exception it raises a 500 and leaves both globals untouched. -/
def logout (st : GatewayState) (now : String)
    (exitOutcome : Except String Unit) :
    GatewayState × HttpResult × List CollabCall :=
  match st.trader with
  | none => (st, .ok (create_response now false "未登录"), [])
  | some h =>
      match exitOutcome with
      | .ok _ =>
          ({ st with trader := none, traderConnected := false },
           .ok (create_response now true "已退出登录"), [.exitCall h])
      | .error e =>
          (st, .httpError 500 ("退出登录失败: " ++ e), [.exitCall h])

/-- The `/health` handler: a pure read of the two globals, no collaborator
call. -/
def health_check (st : GatewayState) (now : String) :
    GatewayState × HttpResult × List CollabCall :=
  (st,
   .ok (create_response now true "服务正常"
     (some (.obj [("connected", .bool st.traderConnected),
                  ("broker_type", .str st.brokerType)]))),
   [])

/-- The `/buy` handler: 503 with no collaborator call unless a connected
handle exists; otherwise one `trader.buy` call whose failure text is wrapped
into the 500 detail. -/
def buy (st : GatewayState) (req : BuyRequest) (now : String)
    (outcome : Except String JsonVal) :
    GatewayState × HttpResult × List CollabCall :=
  match st.trader, st.traderConnected with
  | some h, true =>
      (match outcome with
       | .ok result =>
           (st,
            .ok (create_response now true "买入请求已提交"
              (some (.obj [("symbol", .str req.symbol),
                           ("price", .num req.price),
                           ("amount", .num (req.amount : Rat)),
                           ("order_id", result)]))),
            [.buyCall h req.symbol req.price req.amount])
       | .error e =>
           (st, .httpError 500 ("买入失败: " ++ e),
            [.buyCall h req.symbol req.price req.amount]))
  | _, _ => (st, .httpError 503 "未登录券商", [])

/-- The `/sell` handler, symmetric to `/buy`. -/
def sell (st : GatewayState) (req : SellRequest) (now : String)
    (outcome : Except String JsonVal) :
    GatewayState × HttpResult × List CollabCall :=
  match st.trader, st.traderConnected with
  | some h, true =>
      (match outcome with
       | .ok result =>
           (st,
            .ok (create_response now true "卖出请求已提交"
              (some (.obj [("symbol", .str req.symbol),
                           ("price", .num req.price),
                           ("amount", .num (req.amount : Rat)),
                           ("order_id", result)]))),
            [.sellCall h req.symbol req.price req.amount])
       | .error e =>
           (st, .httpError 500 ("卖出失败: " ++ e),
            [.sellCall h req.symbol req.price req.amount]))
  | _, _ => (st, .httpError 503 "未登录券商", [])

/-- The `/cancel` handler: one `trader.cancel_entrust(order_id)` call. -/
def cancel (st : GatewayState) (req : CancelRequest) (now : String)
    (outcome : Except String JsonVal) :
    GatewayState × HttpResult × List CollabCall :=
  match st.trader, st.traderConnected with
  | some h, true =>
      (match outcome with
       | .ok result =>
           (st,
            .ok (create_response now true "撤销委托请求已提交"
              (some (.obj [("order_id", .str req.order_id),
                           ("result", result)]))),
            [.cancelCall h req.order_id])
       | .error e =>
           (st, .httpError 500 ("撤销委托失败: " ++ e),
            [.cancelCall h req.order_id]))
  | _, _ => (st, .httpError 503 "未登录券商", [])

/-- The `/portfolio` handler: one read of `trader.position`. -/
def get_portfolio (st : GatewayState) (now : String)
    (outcome : Except String JsonVal) :
    GatewayState × HttpResult × List CollabCall :=
  match st.trader, st.traderConnected with
  | some h, true =>
      (match outcome with
       | .ok positions =>
           (st, .ok (create_response now true "获取持仓成功" (some positions)),
            [.positionCall h])
       | .error e =>
           (st, .httpError 500 ("获取持仓失败: " ++ e), [.positionCall h]))
  | _, _ => (st, .httpError 503 "未登录券商", [])

/-- The `/balance` handler: one read of `trader.balance`. -/
def get_balance (st : GatewayState) (now : String)
    (outcome : Except String JsonVal) :
    GatewayState × HttpResult × List CollabCall :=
  match st.trader, st.traderConnected with
  | some h, true =>
      (match outcome with
       | .ok balance =>
           (st, .ok (create_response now true "获取余额成功" (some balance)),
            [.balanceCall h])
       | .error e =>
           (st, .httpError 500 ("获取余额失败: " ++ e), [.balanceCall h]))
  | _, _ => (st, .httpError 503 "未登录券商", [])

/-- The `/orders` handler: one read of `trader.today_entrusts`. -/
def get_orders (st : GatewayState) (now : String)
    (outcome : Except String JsonVal) :
    GatewayState × HttpResult × List CollabCall :=
  match st.trader, st.traderConnected with
  | some h, true =>
      (match outcome with
       | .ok orders =>
           (st, .ok (create_response now true "获取当日委托成功" (some orders)),
            [.todayEntrustsCall h])
       | .error e =>
           (st, .httpError 500 ("获取当日委托失败: " ++ e),
            [.todayEntrustsCall h]))
  | _, _ => (st, .httpError 503 "未登录券商", [])

/-- The `/today_trades` handler: one read of `trader.today_trades`. -/
def get_today_trades (st : GatewayState) (now : String)
    (outcome : Except String JsonVal) :
    GatewayState × HttpResult × List CollabCall :=
  match st.trader, st.traderConnected with
  | some h, true =>
      (match outcome with
       | .ok trades =>
           (st, .ok (create_response now true "获取当日成交成功" (some trades)),
            [.todayTradesCall h])
       | .error e =>
           (st, .httpError 500 ("获取当日成交失败: " ++ e),
            [.todayTradesCall h]))
  | _, _ => (st, .httpError 503 "未登录券商", [])

/-- The `/buy` route as FastAPI runs it: pydantic validation first; a body
that fails validation is answered with 422 and the handler never runs. -/
def buyRoute (st : GatewayState) (symbol : Option String) (price : Option Rat)
    (amount : Option Int) (now : String) (outcome : Except String JsonVal) :
    GatewayState × HttpResult × List CollabCall :=
  match BuyRequest.validate symbol price amount with
  | none => (st, .httpError 422 "Unprocessable Entity", [])
  | some req => buy st req now outcome

/-- The `/sell` route with pydantic validation in front of the handler. -/
def sellRoute (st : GatewayState) (symbol : Option String) (price : Option Rat)
    (amount : Option Int) (now : String) (outcome : Except String JsonVal) :
    GatewayState × HttpResult × List CollabCall :=
  match SellRequest.validate symbol price amount with
  | none => (st, .httpError 422 "Unprocessable Entity", [])
  | some req => sell st req now outcome

/-- The `/cancel` route with pydantic validation in front of the handler. -/
def cancelRoute (st : GatewayState) (orderId : Option String) (now : String)
    (outcome : Except String JsonVal) :
    GatewayState × HttpResult × List CollabCall :=
  match CancelRequest.validate orderId with
  | none => (st, .httpError 422 "Unprocessable Entity", [])
  | some req => cancel st req now outcome

/-- Whether a trace contains a collaborator disconnect (`trader.exit`) call. -/
def hasExitCall (l : List CollabCall) : Bool :=
  l.any fun c =>
    match c with
    | .exitCall _ => true
    | _ => false

/-- C1: for each of the seven trading/query handlers (buy, sell, cancel,
portfolio, balance, orders, today_trades), if the session is not Connected
(no handle, or the connected flag is down), the handler returns the 503
`SessionUnavailable` error, leaves the state untouched and makes no
collaborator call. -/
theorem trading_ops_require_connected (st : GatewayState) (now : String)
    (breq : BuyRequest) (sreq : SellRequest) (creq : CancelRequest)
    (ob os oc op obal oo ot : Except String JsonVal)
    (h : connectedB st = false) :
    buy st breq now ob = (st, .httpError 503 "未登录券商", []) ∧
    sell st sreq now os = (st, .httpError 503 "未登录券商", []) ∧
    cancel st creq now oc = (st, .httpError 503 "未登录券商", []) ∧
    get_portfolio st now op = (st, .httpError 503 "未登录券商", []) ∧
    get_balance st now obal = (st, .httpError 503 "未登录券商", []) ∧
    get_orders st now oo = (st, .httpError 503 "未登录券商", []) ∧
    get_today_trades st now ot = (st, .httpError 503 "未登录券商", []) := by
  obtain ⟨tr, bt, tc, nh⟩ := st
  cases tr <;> cases tc <;>
    simp_all [connectedB, buy, sell, cancel, get_portfolio, get_balance,
      get_orders, get_today_trades]

theorem trading_ops_require_connected_witness :
    connectedB ⟨none, "yh", false, 0⟩ = false ∧
    buy ⟨none, "yh", false, 0⟩ ⟨"sh600000", 1, 100⟩ "t" (.ok .null) =
      (⟨none, "yh", false, 0⟩, .httpError 503 "未登录券商", []) :=
  ⟨rfl,
   (trading_ops_require_connected ⟨none, "yh", false, 0⟩ "t"
      ⟨"sh600000", 1, 100⟩ ⟨"sh600000", 1, 100⟩ ⟨"1"⟩
      (.ok .null) (.ok .null) (.ok .null) (.ok .null) (.ok .null)
      (.ok .null) (.ok .null) rfl).1⟩

/-- C2 counterexample: with a live handle (handle 0, connected), a logout
whose collaborator `exit` call throws leaves the session exactly as it was —
the handle is still present, the connected flag is still `true` (so the
session is still Connected, not Disconnected) — and the failure is surfaced
as an HTTP 500 error, not a logged-but-successful disconnect. -/
theorem logout_failure_keeps_session_cex :
    (logout ⟨some 0, "yh", true, 1⟩ "t" (.error "boom")).1 =
      ⟨some 0, "yh", true, 1⟩ ∧
    connectedB (logout ⟨some 0, "yh", true, 1⟩ "t" (.error "boom")).1 = true ∧
    (logout ⟨some 0, "yh", true, 1⟩ "t" (.error "boom")).2.1 =
      .httpError 500 "退出登录失败: boom" :=
  ⟨rfl, rfl, rfl⟩

/-- C2 amended: when a session handle exists, logout invokes the
collaborator's disconnect; it transitions to Disconnected (handle cleared,
connected flag down) only when that call succeeds.  When the call throws, the
handler raises HTTP 500 with the failure text and the session state is left
unchanged — still holding the handle. -/
theorem logout_disconnects_only_on_success (st : GatewayState) (h : Nat)
    (now : String) (htr : st.trader = some h) :
    (logout st now (.ok ())).1.trader = none ∧
    (logout st now (.ok ())).1.traderConnected = false ∧
    (logout st now (.ok ())).2.2 = [.exitCall h] ∧
    (∀ e, logout st now (.error e) =
      (st, .httpError 500 ("退出登录失败: " ++ e), [.exitCall h])) := by
  obtain ⟨tr, bt, tc, nh⟩ := st
  simp only at htr
  subst htr
  exact ⟨rfl, rfl, rfl, fun e => rfl⟩

theorem logout_disconnects_only_on_success_witness :
    (⟨some 7, "ht", true, 8⟩ : GatewayState).trader = some 7 ∧
    (logout ⟨some 7, "ht", true, 8⟩ "t" (.ok ())).1.trader = none ∧
    (logout ⟨some 7, "ht", true, 8⟩ "t" (.ok ())).1.traderConnected = false :=
  ⟨rfl,
   (logout_disconnects_only_on_success ⟨some 7, "ht", true, 8⟩ 7 "t" rfl).1,
   (logout_disconnects_only_on_success ⟨some 7, "ht", true, 8⟩ 7 "t" rfl).2.1⟩

/-- C3: logout with no session handle returns an HTTP 200 envelope (no raised
error status) whose `success` field is `false` with the explanatory message
"未登录", and makes no collaborator call; the state is unchanged. -/
theorem logout_never_logged_in (st : GatewayState) (now : String)
    (eo : Except String Unit) (h : st.trader = none) :
    logout st now eo = (st, .ok (create_response now false "未登录"), []) ∧
    (create_response now false "未登录").success = false ∧
    (create_response now false "未登录").data = none := by
  obtain ⟨tr, bt, tc, nh⟩ := st
  simp only at h
  subst h
  exact ⟨rfl, rfl, rfl⟩

theorem logout_never_logged_in_witness :
    (⟨none, "yh", false, 0⟩ : GatewayState).trader = none ∧
    logout ⟨none, "yh", false, 0⟩ "t" (.ok ()) =
      (⟨none, "yh", false, 0⟩, .ok (create_response "t" false "未登录"), []) :=
  ⟨rfl, (logout_never_logged_in ⟨none, "yh", false, 0⟩ "t" (.ok ()) rfl).1⟩

/-- C4: two successive successful logins leave exactly one handle, namely the
fresh one produced by the second call; the first call's handle (also fresh,
hence distinct) is replaced, and neither login issues a collaborator
disconnect for the old handle. -/
theorem login_replaces_handle (st : GatewayState) (req1 req2 : LoginRequest)
    (env1 env2 now1 now2 : String) :
    (login st req1 env1 now1 (.ok ()) .success).1.trader =
      some st.nextHandle ∧
    (login (login st req1 env1 now1 (.ok ()) .success).1 req2 env2 now2
        (.ok ()) .success).1.trader = some (st.nextHandle + 1) ∧
    st.nextHandle + 1 ≠ st.nextHandle ∧
    hasExitCall (login st req1 env1 now1 (.ok ()) .success).2.2 = false ∧
    hasExitCall (login (login st req1 env1 now1 (.ok ()) .success).1 req2 env2
        now2 (.ok ()) .success).2.2 = false := by
  refine ⟨rfl, rfl, Nat.succ_ne_self _, rfl, rfl⟩

/-- C5 counterexample: the success path of logout produces, through the
response formatter, an envelope with `success = true` and `data` absent —
so envelopes do not satisfy exactly one of the shapes data-present-with-
success-true / data-absent-with-success-false. -/
theorem envelope_shape_cex :
    (logout ⟨some 0, "yh", true, 1⟩ "t" (.ok ())).2.1 =
      .ok (create_response "t" true "已退出登录") ∧
    (create_response "t" true "已退出登录").success = true ∧
    (create_response "t" true "已退出登录").data = none :=
  ⟨rfl, rfl, rfl⟩

/-- C5 amended: the formatter always stamps the current time into the
`timestamp` field, but `success` and `data` are set independently, each
exactly as the caller passes it (with `data` defaulting to absent), so a
success envelope may carry no data. -/
theorem create_response_fields (now : String) (s : Bool) (m : String)
    (d : Option JsonVal) :
    (create_response now s m d).timestamp = now ∧
    (create_response now s m d).success = s ∧
    (create_response now s m d).data = d ∧
    (create_response now s m).data = none :=
  ⟨rfl, rfl, rfl, rfl⟩

/-- C6: for each of the seven trading/query handlers, when the session is
connected and the single collaborator call raises an opaque failure `e`, the
handler raises HTTP 500 whose detail is a fixed handler prefix followed by
the failure text verbatim (no interpretation or re-classification), and the
state — the (handle, connected-flag) pair and everything else — is returned
unchanged.  The trace shows the one collaborator call that failed. -/
theorem collaborator_failure_passthrough (st : GatewayState) (h : Nat)
    (now e : String) (breq : BuyRequest) (sreq : SellRequest)
    (creq : CancelRequest) (htr : st.trader = some h)
    (hc : st.traderConnected = true) :
    buy st breq now (.error e) =
      (st, .httpError 500 ("买入失败: " ++ e),
       [.buyCall h breq.symbol breq.price breq.amount]) ∧
    sell st sreq now (.error e) =
      (st, .httpError 500 ("卖出失败: " ++ e),
       [.sellCall h sreq.symbol sreq.price sreq.amount]) ∧
    cancel st creq now (.error e) =
      (st, .httpError 500 ("撤销委托失败: " ++ e),
       [.cancelCall h creq.order_id]) ∧
    get_portfolio st now (.error e) =
      (st, .httpError 500 ("获取持仓失败: " ++ e), [.positionCall h]) ∧
    get_balance st now (.error e) =
      (st, .httpError 500 ("获取余额失败: " ++ e), [.balanceCall h]) ∧
    get_orders st now (.error e) =
      (st, .httpError 500 ("获取当日委托失败: " ++ e),
       [.todayEntrustsCall h]) ∧
    get_today_trades st now (.error e) =
      (st, .httpError 500 ("获取当日成交失败: " ++ e),
       [.todayTradesCall h]) := by
  obtain ⟨tr, bt, tc, nh⟩ := st
  simp only at htr hc
  subst htr
  subst hc
  exact ⟨rfl, rfl, rfl, rfl, rfl, rfl, rfl⟩

theorem collaborator_failure_passthrough_witness :
    (⟨some 0, "yh", true, 1⟩ : GatewayState).trader = some 0 ∧
    (⟨some 0, "yh", true, 1⟩ : GatewayState).traderConnected = true ∧
    buy ⟨some 0, "yh", true, 1⟩ ⟨"sh600000", 1, 100⟩ "t" (.error "网络断开") =
      (⟨some 0, "yh", true, 1⟩, .httpError 500 "买入失败: 网络断开",
       [.buyCall 0 "sh600000" 1 100]) :=
  ⟨rfl, rfl,
   (collaborator_failure_passthrough ⟨some 0, "yh", true, 1⟩ 0 "t" "网络断开"
      ⟨"sh600000", 1, 100⟩ ⟨"sh600000", 1, 100⟩ ⟨"1"⟩ rfl rfl).1⟩

/-- C7: an order body (buy or sell) with price ≤ 0 or quantity ≤ 0 is rejected
by validation with the 422 invalid-argument response; the handler never runs
and the collaborator-call trace is empty. -/
theorem invalid_order_rejected (st : GatewayState) (s : String) (p : Rat)
    (a : Int) (now : String) (ob os : Except String JsonVal)
    (h : p ≤ 0 ∨ a ≤ 0) :
    buyRoute st (some s) (some p) (some a) now ob =
      (st, .httpError 422 "Unprocessable Entity", []) ∧
    sellRoute st (some s) (some p) (some a) now os =
      (st, .httpError 422 "Unprocessable Entity", []) := by
  have hv : ¬(0 < p ∧ 0 < a) := by
    rcases h with h | h
    · exact fun hc => absurd hc.1 (not_lt.2 h)
    · exact fun hc => absurd hc.2 (not_lt.2 h)
  constructor
  · simp [buyRoute, BuyRequest.validate, hv]
  · simp [sellRoute, SellRequest.validate, hv]

theorem invalid_order_rejected_witness :
    ((-1 : Rat) ≤ 0 ∨ (100 : Int) ≤ 0) ∧
    buyRoute ⟨some 0, "yh", true, 1⟩ (some "sh600000") (some (-1)) (some 100)
        "t" (.ok .null) =
      (⟨some 0, "yh", true, 1⟩, .httpError 422 "Unprocessable Entity", []) :=
  ⟨Or.inl (by norm_num),
   (invalid_order_rejected ⟨some 0, "yh", true, 1⟩ "sh600000" (-1) 100 "t"
      (.ok .null) (.ok .null) (Or.inl (by norm_num))).1⟩

/-- C8 counterexample: validation accepts an empty `symbol` on a buy body and
an empty `order_id` on a cancel body — the fields are only required to be
present, not non-empty — and on a connected session the empty strings reach
the collaborator (the trace shows the call made with the empty string). -/
theorem empty_string_fields_accepted_cex :
    BuyRequest.validate (some "") (some 1) (some 100) = some ⟨"", 1, 100⟩ ∧
    CancelRequest.validate (some "") = some ⟨""⟩ ∧
    (buyRoute ⟨some 0, "yh", true, 1⟩ (some "") (some 1) (some 100) "t"
      (.ok (.str "42"))).2.2 = [.buyCall 0 "" 1 100] ∧
    (cancelRoute ⟨some 0, "yh", true, 1⟩ (some "") "t"
      (.ok (.str "ok"))).2.2 = [.cancelCall 0 ""] := by
  refine ⟨?_, rfl, ?_, rfl⟩ <;>
    simp [BuyRequest.validate, buyRoute, buy]

/-- C8 amended: validation of the string fields checks presence only — a
missing `symbol` or `order_id` is rejected, but any present string, including
the empty one, is accepted (price and quantity still must be strictly
positive), so empty strings are not stopped before the session interaction. -/
theorem string_fields_presence_only (s : String) (p : Rat) (a : Int)
    (hp : 0 < p) (ha : 0 < a) :
    BuyRequest.validate (some s) (some p) (some a) = some ⟨s, p, a⟩ ∧
    SellRequest.validate (some s) (some p) (some a) = some ⟨s, p, a⟩ ∧
    CancelRequest.validate (some s) = some ⟨s⟩ ∧
    BuyRequest.validate none (some p) (some a) = none ∧
    CancelRequest.validate none = none := by
  refine ⟨?_, ?_, rfl, rfl, rfl⟩ <;>
    simp [BuyRequest.validate, SellRequest.validate, hp, ha]

theorem string_fields_presence_only_witness :
    (0 : Rat) < 1 ∧ (0 : Int) < 100 ∧
    BuyRequest.validate (some "") (some 1) (some 100) = some ⟨"", 1, 100⟩ :=
  ⟨by norm_num, by norm_num,
   (string_fields_presence_only "" 1 100 (by norm_num) (by norm_num)).1⟩

/-- C9: after a login whose collaborator connect sequence fails (the
`easytrader.use` succeeded, so the global was overwritten), the state still
holds the new never-authenticated handle rather than `None`; a subsequent
logout therefore does not take the not-connected path: it issues the
collaborator `exit` call on that handle and never returns the
success=false "未登录" envelope. -/
theorem failed_login_keeps_handle (st : GatewayState) (req : LoginRequest)
    (env now now2 : String) (co : ConnectOutcome)
    (eo : Except String Unit) (h : co ≠ ConnectOutcome.success) :
    (login st req env now (.ok ()) co).1.trader = some st.nextHandle ∧
    (login st req env now (.ok ()) co).1.traderConnected = false ∧
    (logout (login st req env now (.ok ()) co).1 now2 eo).2.2 =
      [.exitCall st.nextHandle] ∧
    (logout (login st req env now (.ok ()) co).1 now2 eo).2.1 ≠
      .ok (create_response now2 false "未登录") := by
  cases co with
  | success => exact absurd rfl h
  | prepareFail e =>
      refine ⟨rfl, rfl, ?_, ?_⟩ <;> cases eo <;>
        simp [login, logout, create_response]
  | loginFail e =>
      refine ⟨rfl, rfl, ?_, ?_⟩ <;> cases eo <;>
        simp [login, logout, create_response]

theorem failed_login_keeps_handle_witness :
    ConnectOutcome.loginFail "密码错误" ≠ ConnectOutcome.success ∧
    (login ⟨none, "yh", false, 0⟩ ⟨"ht", some "u", some "p", none⟩ "" "t"
      (.ok ()) (.loginFail "密码错误")).1.trader = some 0 ∧
    (logout (login ⟨none, "yh", false, 0⟩ ⟨"ht", some "u", some "p", none⟩ ""
      "t" (.ok ()) (.loginFail "密码错误")).1 "t2" (.ok ())).2.2 =
      [.exitCall 0] :=
  ⟨by simp,
   (failed_login_keeps_handle ⟨none, "yh", false, 0⟩
      ⟨"ht", some "u", some "p", none⟩ "" "t" "t2" (.loginFail "密码错误")
      (.ok ()) (by simp)).1,
   (failed_login_keeps_handle ⟨none, "yh", false, 0⟩
      ⟨"ht", some "u", some "p", none⟩ "" "t" "t2" (.loginFail "密码错误")
      (.ok ()) (by simp)).2.2.1⟩

/-- C10: a login whose collaborator connect sequence fails has already
overwritten the process-wide broker kind with the requested one (the
assignment precedes the prepare/login attempt) and it is not rolled back, so
a health check after the failed login reports `connected = false` together
with the newly requested broker kind. -/
theorem failed_login_updates_broker_kind (st : GatewayState)
    (req : LoginRequest) (env now now2 : String) (co : ConnectOutcome)
    (h : co ≠ ConnectOutcome.success) :
    (login st req env now (.ok ()) co).1.brokerType = req.broker_type ∧
    (login st req env now (.ok ()) co).1.traderConnected = false ∧
    (health_check (login st req env now (.ok ()) co).1 now2).2.1 =
      .ok (create_response now2 true "服务正常"
        (some (.obj [("connected", .bool false),
                     ("broker_type", .str req.broker_type)]))) ∧
    (health_check (login st req env now (.ok ()) co).1 now2).2.2 = [] := by
  cases co with
  | success => exact absurd rfl h
  | prepareFail e => exact ⟨rfl, rfl, rfl, rfl⟩
  | loginFail e => exact ⟨rfl, rfl, rfl, rfl⟩

theorem failed_login_updates_broker_kind_witness :
    ConnectOutcome.prepareFail "客户端未找到" ≠ ConnectOutcome.success ∧
    (login ⟨none, "yh", false, 0⟩ ⟨"xq", none, none, none⟩ "" "t" (.ok ())
      (.prepareFail "客户端未找到")).1.brokerType = "xq" ∧
    (health_check (login ⟨none, "yh", false, 0⟩ ⟨"xq", none, none, none⟩ ""
      "t" (.ok ()) (.prepareFail "客户端未找到")).1 "t2").2.1 =
      .ok (create_response "t2" true "服务正常"
        (some (.obj [("connected", .bool false),
                     ("broker_type", .str "xq")]))) :=
  ⟨by simp,
   (failed_login_updates_broker_kind ⟨none, "yh", false, 0⟩
      ⟨"xq", none, none, none⟩ "" "t" "t2" (.prepareFail "客户端未找到")
      (by simp)).1,
   (failed_login_updates_broker_kind ⟨none, "yh", false, 0⟩
      ⟨"xq", none, none, none⟩ "" "t" "t2" (.prepareFail "客户端未找到")
      (by simp)).2.2.1⟩

end EasyTrader
